import Mathlib

/-!
Verification of the WebGL-lab numeric core: the column-major 4×4 matrix
utilities (`src/core/math/mat4.ts`) and the lat/long sphere-mesh generator
(`src/core/mesh/sphere.ts`).

Modelling conventions (shallow embedding):
* JavaScript numbers (IEEE-754 doubles, stored through `Float32Array`) are
  modelled as real numbers; claims phrased "within floating-point tolerance"
  are settled as exact identities of the real-arithmetic idealization.
* A `Float32Array(16)` matrix is modelled as a function `ℕ → ℝ` whose
  meaningful entries are indices 0..15 (column-major); reads outside the
  allocated range are modelled as 0 and are never used by the claims.
* `Float32Array` / `Uint16Array` mesh buffers are modelled as Lists produced
  in the exact order the source's cursor loops write them; `Uint16Array`
  element storage keeps the JavaScript truncation `value % 65536`.
* The source parameter `stacks` is rendered as `nStacks` (the identifier
  `stacks` is a reserved token in this toolchain); every other name follows
  the source.
-/

/-- A 4×4 column-major matrix, modelling `Float32Array(16)`:
entry at flat index `col * 4 + row`. -/
def Mat4 := ℕ → ℝ

namespace Mat4

/-- Model of writing one element of a typed array: `m[i] = v`. -/
def setAt (m : Mat4) (i : ℕ) (v : ℝ) : Mat4 :=
  fun n => if n = i then v else m n

/-- Model of `new Float32Array(16)`: all entries zero. -/
def zeroMat : Mat4 := fun _ => 0

/-- `identity()` from mat4.ts: zero matrix with entries 0, 5, 10, 15 set to 1. -/
def identity : Mat4 :=
  ((((zeroMat.setAt 0 1).setAt 5 1).setAt 10 1).setAt 15 1)

/-- `multiply(a, b)` from mat4.ts: for each `col`, `row` in `0..3`,
`out[col*4+row] = a[row]*b[col*4] + a[4+row]*b[col*4+1] + a[8+row]*b[col*4+2]
+ a[12+row]*b[col*4+3]`.  Entries outside the 16 allocated slots are 0. -/
def multiply (a b : Mat4) : Mat4 := fun n =>
  if n < 16 then
    let col := n / 4
    let row := n % 4
    a row * b (col * 4) +
    a (4 + row) * b (col * 4 + 1) +
    a (8 + row) * b (col * 4 + 2) +
    a (12 + row) * b (col * 4 + 3)
  else 0

/-- `translation(tx, ty, tz)` from mat4.ts. -/
def translation (tx ty tz : ℝ) : Mat4 :=
  ((identity.setAt 12 tx).setAt 13 ty).setAt 14 tz

/-- `scaling(sx, sy, sz)` from mat4.ts. -/
def scaling (sx sy sz : ℝ) : Mat4 :=
  ((identity.setAt 0 sx).setAt 5 sy).setAt 10 sz

/-- Read the flat array as a mathematical 4×4 matrix (column-major layout:
row `r`, column `c` lives at flat index `c*4 + r`). -/
def toMatrix (m : Mat4) : Matrix (Fin 4) (Fin 4) ℝ :=
  fun r c => m (c.val * 4 + r.val)

/-- Spec-side convention `v' = M·v` for a homogeneous column vector:
component `r` of the product is `Σ k, M[k*4+r] * v_k`. -/
def applyToPoint (m : Mat4) (v : ℝ × ℝ × ℝ × ℝ) : ℝ × ℝ × ℝ × ℝ :=
  (m 0 * v.1 + m 4 * v.2.1 + m 8 * v.2.2.1 + m 12 * v.2.2.2,
   m 1 * v.1 + m 5 * v.2.1 + m 9 * v.2.2.1 + m 13 * v.2.2.2,
   m 2 * v.1 + m 6 * v.2.1 + m 10 * v.2.2.1 + m 14 * v.2.2.2,
   m 3 * v.1 + m 7 * v.2.1 + m 11 * v.2.2.1 + m 15 * v.2.2.2)

end Mat4

namespace Mat4

/-- C3: `multiply(identity(), M)` and `multiply(M, identity())` are each
element-wise equal to `M` on all 16 entries (left and right identity laws). -/
theorem multiply_identity_laws (M : Mat4) :
    ∀ i : ℕ, i < 16 →
      multiply identity M i = M i ∧ multiply M identity i = M i := by
  intro i hi
  interval_cases i <;>
    constructor <;>
    · simp only [multiply, identity, setAt, zeroMat]
      norm_num

/-- Witness for C3 at a concrete matrix and index. -/
theorem multiply_identity_laws_witness :
    multiply identity (translation 1 2 3) 12 = translation 1 2 3 12 ∧
    multiply (translation 1 2 3) identity 12 = translation 1 2 3 12 :=
  multiply_identity_laws (translation 1 2 3) 12 (by norm_num)

/-- C2: `multiply(a, b)` is the plain 4×4 matrix product `a · b` read back
through the column-major layout (so with `v' = M·v`, `b` is applied first,
then `a`); and `multiply(scaling(2,2,2), translation(1,0,0))` applied to the
homogeneous point `(0,0,0,1)` yields `(2,0,0,1)`. -/
theorem multiply_is_matrix_product (a b : Mat4) :
    toMatrix (multiply a b) = toMatrix a * toMatrix b ∧
    applyToPoint (multiply (scaling 2 2 2) (translation 1 0 0))
      (0, 0, 0, 1) = (2, 0, 0, 1) := by
  constructor
  · funext r c
    fin_cases r <;> fin_cases c <;>
      · simp only [toMatrix, multiply, Matrix.mul_apply, Fin.sum_univ_four]
        norm_num [show ((3 : Fin 4) : ℕ) = 3 from rfl]
  · simp only [applyToPoint, multiply, scaling, translation, identity, setAt,
      zeroMat]
    norm_num

/-- C8: `multiply` is associative, element-wise on all 16 entries. -/
theorem multiply_assoc (A B C : Mat4) :
    ∀ i : ℕ, i < 16 →
      multiply (multiply A B) C i = multiply A (multiply B C) i := by
  intro i hi
  interval_cases i <;>
    · simp only [multiply]
      norm_num
      ring

/-- Witness for C8 at concrete matrices and a concrete index. -/
theorem multiply_assoc_witness :
    multiply (multiply identity (translation 1 2 3)) (scaling 2 2 2) 12 =
      multiply identity (multiply (translation 1 2 3) (scaling 2 2 2)) 12 :=
  multiply_assoc identity (translation 1 2 3) (scaling 2 2 2) 12 (by norm_num)

end Mat4

namespace Sphere

/-- Position of grid vertex `(stack, slice)` exactly as computed in the inner
loop of `createSphereMesh`: `phi = (stack/nStacks)*π`,
`theta = (slice/slices)*2*π`, `x = radius*sin(phi)*cos(theta)`,
`y = radius*cos(phi)`, `z = radius*sin(phi)*sin(theta)`. -/
noncomputable def vertexPos (radius : ℝ) (nStacks slices stack slice : ℕ) :
    ℝ × ℝ × ℝ :=
  let phi : ℝ := ((stack : ℝ) / (nStacks : ℝ)) * Real.pi
  let theta : ℝ := ((slice : ℝ) / (slices : ℝ)) * 2 * Real.pi
  (radius * Real.sin phi * Real.cos theta,
   radius * Real.cos phi,
   radius * Real.sin phi * Real.sin theta)

/-- The `positions` buffer: the vertex loop runs `stack = 0..nStacks`,
`slice = 0..slices`, appending `x, y, z` for each vertex in cursor order. -/
noncomputable def spherePositions (radius : ℝ) (nStacks slices : ℕ) : List ℝ :=
  (List.range (nStacks + 1)).flatMap fun stack =>
    (List.range (slices + 1)).flatMap fun slice =>
      [(vertexPos radius nStacks slices stack slice).1,
       (vertexPos radius nStacks slices stack slice).2.1,
       (vertexPos radius nStacks slices stack slice).2.2]

/-- The `uvs` buffer: the same loop appends `u = slice/slices`,
`v = stack/nStacks` for each vertex. -/
noncomputable def sphereUVs (nStacks slices : ℕ) : List ℝ :=
  (List.range (nStacks + 1)).flatMap fun stack =>
    (List.range (slices + 1)).flatMap fun slice =>
      [(slice : ℝ) / (slices : ℝ), (stack : ℝ) / (nStacks : ℝ)]

/-- The six index values written for grid cell `(stack, slice)`:
`first, second, first+1, first+1, second, second+1` with
`first = stack*(slices+1)+slice` and `second = first+slices+1`, each stored
modulo 2^16 because the target buffer is a `Uint16Array`. -/
def sphereCellIndices (slices stack slice : ℕ) : List ℕ :=
  let first := stack * (slices + 1) + slice
  let second := first + slices + 1
  [first % 65536, second % 65536, (first + 1) % 65536,
   (first + 1) % 65536, second % 65536, (second + 1) % 65536]

/-- The `indices` buffer: the index loop runs `stack = 0..nStacks-1`,
`slice = 0..slices-1`, appending the six cell indices in cursor order. -/
def sphereIndices (nStacks slices : ℕ) : List ℕ :=
  (List.range nStacks).flatMap fun stack =>
    (List.range slices).flatMap fun slice =>
      sphereCellIndices slices stack slice

/-- Return value of `createSphereMesh`. -/
structure SphereMesh where
  positions : List ℝ
  uvs : List ℝ
  indices : List ℕ
  vertexCount : ℕ
  indexCount : ℕ

/-- `createSphereMesh(radius, nStacks, slices)` from sphere.ts. -/
noncomputable def createSphereMesh (radius : ℝ) (nStacks slices : ℕ) :
    SphereMesh where
  positions := spherePositions radius nStacks slices
  uvs := sphereUVs nStacks slices
  indices := sphereIndices nStacks slices
  vertexCount := (nStacks + 1) * (slices + 1)
  indexCount := nStacks * slices * 6

/-- The `console.warn` emitted by `createSphereMesh` when
`vertexCount > 65535`; it is the function's only side effect and does not
feed back into the construction of the mesh. -/
def sphereMeshWarnings (nStacks slices : ℕ) : List String :=
  if (nStacks + 1) * (slices + 1) > 65535 then
    ["[createSphereMesh] vertexCount > 65535. Clamping for WebGL1 Uint16 index compatibility."]
  else []

/-- Length of a `flatMap` whose blocks all have length `L`. -/
theorem length_flatMap_const {α β : Type} (f : α → List β) (L : ℕ)
    (hL : ∀ a, (f a).length = L) (xs : List α) :
    (xs.flatMap f).length = xs.length * L := by
  induction xs with
  | nil => simp
  | cons x xs ih =>
    rw [List.flatMap_cons, List.length_append, hL, ih, List.length_cons]
    ring

/-- Element lookup in a `flatMap` whose blocks all have length `L`:
position `L*i + j` falls in the block generated from the list's `i`-th
element. -/
theorem getElem?_flatMap_const {α β : Type} (f : α → List β) (L : ℕ)
    (hL : ∀ a, (f a).length = L) :
    ∀ (xs : List α) (i j : ℕ) (a : α), xs[i]? = some a → j < L →
      (xs.flatMap f)[L * i + j]? = (f a)[j]? := by
  intro xs
  induction xs with
  | nil => intro i j a ha _; simp at ha
  | cons x xs ih =>
    intro i j a ha hj
    rw [List.flatMap_cons]
    cases i with
    | zero =>
      have hax : a = x := by simpa using ha.symm
      subst hax
      rw [Nat.mul_zero, Nat.zero_add]
      exact List.getElem?_append_left (by rw [hL]; exact hj)
    | succ i =>
      have hmul : L * (i + 1) = L * i + L := by ring
      have hx : (f x).length ≤ L * (i + 1) + j := by rw [hL]; omega
      rw [List.getElem?_append_right hx]
      have harith : L * (i + 1) + j - (f x).length = L * i + j := by
        rw [hL]; omega
      rw [harith]
      exact ih i j a (by simpa using ha) hj

/-- Length of the `positions` buffer. -/
theorem spherePositions_length (radius : ℝ) (nStacks slices : ℕ) :
    (spherePositions radius nStacks slices).length =
      (nStacks + 1) * ((slices + 1) * 3) := by
  have hinner : ∀ st : ℕ,
      ((List.range (slices + 1)).flatMap fun slice =>
        [(vertexPos radius nStacks slices st slice).1,
         (vertexPos radius nStacks slices st slice).2.1,
         (vertexPos radius nStacks slices st slice).2.2]).length =
        (slices + 1) * 3 := by
    intro st
    rw [length_flatMap_const
      (fun slice => [(vertexPos radius nStacks slices st slice).1,
        (vertexPos radius nStacks slices st slice).2.1,
        (vertexPos radius nStacks slices st slice).2.2]) 3 (fun _ => rfl),
      List.length_range]
  unfold spherePositions
  rw [length_flatMap_const _ ((slices + 1) * 3) hinner, List.length_range]

/-- Length of the `uvs` buffer. -/
theorem sphereUVs_length (nStacks slices : ℕ) :
    (sphereUVs nStacks slices).length = (nStacks + 1) * ((slices + 1) * 2) := by
  have hinner : ∀ st : ℕ,
      ((List.range (slices + 1)).flatMap fun slice : ℕ =>
        [(slice : ℝ) / (slices : ℝ), (st : ℝ) / (nStacks : ℝ)]).length =
        (slices + 1) * 2 := by
    intro st
    rw [length_flatMap_const
      (fun slice : ℕ => [(slice : ℝ) / (slices : ℝ), (st : ℝ) / (nStacks : ℝ)])
      2 (fun _ => rfl), List.length_range]
  unfold sphereUVs
  rw [length_flatMap_const _ ((slices + 1) * 2) hinner, List.length_range]

/-- Length of the `indices` buffer. -/
theorem sphereIndices_length (nStacks slices : ℕ) :
    (sphereIndices nStacks slices).length = nStacks * (slices * 6) := by
  have hinner : ∀ st : ℕ,
      ((List.range slices).flatMap fun slice =>
        sphereCellIndices slices st slice).length = slices * 6 := by
    intro st
    rw [length_flatMap_const
      (fun slice => sphereCellIndices slices st slice) 6 (fun _ => rfl),
      List.length_range]
  unfold sphereIndices
  rw [length_flatMap_const _ (slices * 6) hinner, List.length_range]

/-- The entry at offset `6*(stack*slices+slice)+j` of the `indices` buffer is
entry `j` of the six values written for cell `(stack, slice)`. -/
theorem sphereIndices_cell_getElem (nStacks slices stack slice j : ℕ)
    (hst : stack < nStacks) (hsl : slice < slices) (hj : j < 6) :
    (sphereIndices nStacks slices)[6 * (stack * slices + slice) + j]? =
      (sphereCellIndices slices stack slice)[j]? := by
  have houter : ∀ st : ℕ,
      ((List.range slices).flatMap fun slice =>
        sphereCellIndices slices st slice).length = slices * 6 := by
    intro st
    rw [length_flatMap_const
      (fun slice => sphereCellIndices slices st slice) 6 (fun _ => rfl),
      List.length_range]
  have h1 := getElem?_flatMap_const
    (fun st => (List.range slices).flatMap fun slice =>
      sphereCellIndices slices st slice)
    (slices * 6) houter (List.range nStacks) stack (6 * slice + j) stack
    (List.getElem?_range hst) (by omega)
  have h2 := getElem?_flatMap_const
    (fun sl => sphereCellIndices slices stack sl) 6 (fun _ => rfl)
    (List.range slices) slice j slice (List.getElem?_range hsl) hj
  have harith : 6 * (stack * slices + slice) + j =
      slices * 6 * stack + (6 * slice + j) := by ring
  simp only at h1 h2
  rw [sphereIndices, harith, h1, h2]

/-- The entry at offset `3*(stack*(slices+1)+slice)+j` of the `positions`
buffer is coordinate `j` of grid vertex `(stack, slice)`. -/
theorem spherePositions_vertex_getElem
    (radius : ℝ) (nStacks slices stack slice j : ℕ)
    (hst : stack < nStacks + 1) (hsl : slice < slices + 1) (hj : j < 3) :
    (spherePositions radius nStacks slices)[3 * (stack * (slices + 1) + slice) + j]? =
      [(vertexPos radius nStacks slices stack slice).1,
       (vertexPos radius nStacks slices stack slice).2.1,
       (vertexPos radius nStacks slices stack slice).2.2][j]? := by
  have houter : ∀ st : ℕ,
      ((List.range (slices + 1)).flatMap fun slice =>
        [(vertexPos radius nStacks slices st slice).1,
         (vertexPos radius nStacks slices st slice).2.1,
         (vertexPos radius nStacks slices st slice).2.2]).length =
        (slices + 1) * 3 := by
    intro st
    rw [length_flatMap_const
      (fun slice => [(vertexPos radius nStacks slices st slice).1,
        (vertexPos radius nStacks slices st slice).2.1,
        (vertexPos radius nStacks slices st slice).2.2]) 3 (fun _ => rfl),
      List.length_range]
  have h1 := getElem?_flatMap_const
    (fun st => (List.range (slices + 1)).flatMap fun slice =>
      [(vertexPos radius nStacks slices st slice).1,
       (vertexPos radius nStacks slices st slice).2.1,
       (vertexPos radius nStacks slices st slice).2.2])
    ((slices + 1) * 3) houter (List.range (nStacks + 1)) stack (3 * slice + j)
    stack (List.getElem?_range hst) (by omega)
  have h2 := getElem?_flatMap_const
    (fun sl => [(vertexPos radius nStacks slices stack sl).1,
      (vertexPos radius nStacks slices stack sl).2.1,
      (vertexPos radius nStacks slices stack sl).2.2]) 3 (fun _ => rfl)
    (List.range (slices + 1)) slice j slice (List.getElem?_range hsl) hj
  have harith : 3 * (stack * (slices + 1) + slice) + j =
      (slices + 1) * 3 * stack + (3 * slice + j) := by ring
  simp only at h1 h2
  rw [spherePositions, harith, h1, h2]

/-- The entry at offset `2*(stack*(slices+1)+slice)+j` of the `uvs` buffer is
component `j` of the UV pair of grid vertex `(stack, slice)`. -/
theorem sphereUVs_vertex_getElem (nStacks slices stack slice j : ℕ)
    (hst : stack < nStacks + 1) (hsl : slice < slices + 1) (hj : j < 2) :
    (sphereUVs nStacks slices)[2 * (stack * (slices + 1) + slice) + j]? =
      [(slice : ℝ) / (slices : ℝ), (stack : ℝ) / (nStacks : ℝ)][j]? := by
  have houter : ∀ st : ℕ,
      ((List.range (slices + 1)).flatMap fun slice : ℕ =>
        [(slice : ℝ) / (slices : ℝ), (st : ℝ) / (nStacks : ℝ)]).length =
        (slices + 1) * 2 := by
    intro st
    rw [length_flatMap_const
      (fun slice : ℕ => [(slice : ℝ) / (slices : ℝ), (st : ℝ) / (nStacks : ℝ)])
      2 (fun _ => rfl), List.length_range]
  have h1 := getElem?_flatMap_const
    (fun st : ℕ => (List.range (slices + 1)).flatMap fun slice : ℕ =>
      [(slice : ℝ) / (slices : ℝ), (st : ℝ) / (nStacks : ℝ)])
    ((slices + 1) * 2) houter (List.range (nStacks + 1)) stack (2 * slice + j)
    stack (List.getElem?_range hst) (by omega)
  have h2 := getElem?_flatMap_const
    (fun sl : ℕ => [(sl : ℝ) / (slices : ℝ), (stack : ℝ) / (nStacks : ℝ)]) 2
    (fun _ => rfl)
    (List.range (slices + 1)) slice j slice (List.getElem?_range hsl) hj
  have harith : 2 * (stack * (slices + 1) + slice) + j =
      (slices + 1) * 2 * stack + (2 * slice + j) := by ring
  simp only at h1 h2
  rw [sphereUVs, harith, h1, h2]

/-- Every value in the `indices` buffer is below the vertex count and below
the `Uint16Array` element bound 2^16. -/
theorem sphereIndices_mem_bound (nStacks slices : ℕ) :
    ∀ n ∈ sphereIndices nStacks slices,
      n < (nStacks + 1) * (slices + 1) ∧ n < 65536 := by
  intro n hn
  unfold sphereIndices at hn
  rw [List.mem_flatMap] at hn
  obtain ⟨stack, hstack, hn⟩ := hn
  rw [List.mem_flatMap] at hn
  obtain ⟨slice, hslice, hn⟩ := hn
  rw [List.mem_range] at hstack hslice
  simp only [sphereCellIndices, List.mem_cons, List.not_mem_nil, or_false]
    at hn
  have hmul : (stack + 1) * (slices + 1) ≤ nStacks * (slices + 1) :=
    Nat.mul_le_mul_right _ hstack
  have e1 : (stack + 1) * (slices + 1) = stack * (slices + 1) + slices + 1 :=
    by ring
  have e2 : (nStacks + 1) * (slices + 1) =
      nStacks * (slices + 1) + slices + 1 := by ring
  omega

/-- C1: for `stacks ≥ 1` and `slices ≥ 1`, `createSphereMesh(r, stacks,
slices)` returns a mesh with `vertexCount = (stacks+1)*(slices+1)`,
`positions.length = 3*vertexCount`, `uvs.length = 2*vertexCount`,
`indices.length = indexCount = stacks*slices*6`, and every index value
strictly below `vertexCount`; instantiated at `(1, 2, 4)` this gives 15
vertices and 48 indices (see the witness). -/
theorem createSphereMesh_shape (radius : ℝ) (nStacks slices : ℕ)
    (h1 : 1 ≤ nStacks) (h2 : 1 ≤ slices) :
    (createSphereMesh radius nStacks slices).vertexCount =
      (nStacks + 1) * (slices + 1) ∧
    (createSphereMesh radius nStacks slices).positions.length =
      3 * (createSphereMesh radius nStacks slices).vertexCount ∧
    (createSphereMesh radius nStacks slices).uvs.length =
      2 * (createSphereMesh radius nStacks slices).vertexCount ∧
    (createSphereMesh radius nStacks slices).indices.length =
      (createSphereMesh radius nStacks slices).indexCount ∧
    (createSphereMesh radius nStacks slices).indexCount =
      nStacks * slices * 6 ∧
    ∀ n ∈ (createSphereMesh radius nStacks slices).indices,
      n < (createSphereMesh radius nStacks slices).vertexCount := by
  refine ⟨rfl, ?_, ?_, ?_, rfl, ?_⟩
  · show (spherePositions radius nStacks slices).length =
      3 * ((nStacks + 1) * (slices + 1))
    rw [spherePositions_length]; ring
  · show (sphereUVs nStacks slices).length =
      2 * ((nStacks + 1) * (slices + 1))
    rw [sphereUVs_length]; ring
  · show (sphereIndices nStacks slices).length = nStacks * slices * 6
    rw [sphereIndices_length]; ring
  · intro n hn
    exact (sphereIndices_mem_bound nStacks slices n hn).1

/-- Witness for C1: `createSphereMesh(1, 2, 4)` has 15 vertices, 45 position
entries, 30 uv entries, 48 indices, and all indices below 15. -/
theorem createSphereMesh_shape_witness :
    (createSphereMesh 1 2 4).vertexCount = 15 ∧
    (createSphereMesh 1 2 4).positions.length = 45 ∧
    (createSphereMesh 1 2 4).uvs.length = 30 ∧
    (createSphereMesh 1 2 4).indices.length = 48 ∧
    (createSphereMesh 1 2 4).indexCount = 48 ∧
    ∀ n ∈ (createSphereMesh (1 : ℝ) 2 4).indices, n < 15 := by
  obtain ⟨hv, hp, hu, hil, hic, hb⟩ :=
    createSphereMesh_shape 1 2 4 (by norm_num) (by norm_num)
  refine ⟨by omega, by omega, by omega, by omega, by omega, ?_⟩
  intro n hn
  have := hb n hn
  omega

/-- C4 (amended): for every grid cell `(stack, slice)` with `stack < stacks`
and `slice < slices`, `createSphereMesh` writes at offset
`6*(stack*slices+slice)` of the `indices` array the six values `first`,
`second`, `first+1`, `first+1`, `second`, `second+1` each reduced modulo 2^16
(the `Uint16Array` element width), where `first = stack*(slices+1)+slice` and
`second = first+slices+1`; the reductions are the identity whenever
`vertexCount ≤ 65536`. -/
theorem createSphereMesh_cell_indices (radius : ℝ)
    (nStacks slices stack slice : ℕ)
    (h1 : 1 ≤ nStacks) (h2 : 1 ≤ slices)
    (hst : stack < nStacks) (hsl : slice < slices) :
    (createSphereMesh radius nStacks slices).indices[6 * (stack * slices + slice)]? =
      some ((stack * (slices + 1) + slice) % 65536) ∧
    (createSphereMesh radius nStacks slices).indices[6 * (stack * slices + slice) + 1]? =
      some ((stack * (slices + 1) + slice + slices + 1) % 65536) ∧
    (createSphereMesh radius nStacks slices).indices[6 * (stack * slices + slice) + 2]? =
      some ((stack * (slices + 1) + slice + 1) % 65536) ∧
    (createSphereMesh radius nStacks slices).indices[6 * (stack * slices + slice) + 3]? =
      some ((stack * (slices + 1) + slice + 1) % 65536) ∧
    (createSphereMesh radius nStacks slices).indices[6 * (stack * slices + slice) + 4]? =
      some ((stack * (slices + 1) + slice + slices + 1) % 65536) ∧
    (createSphereMesh radius nStacks slices).indices[6 * (stack * slices + slice) + 5]? =
      some ((stack * (slices + 1) + slice + slices + 1 + 1) % 65536) :=
  ⟨sphereIndices_cell_getElem nStacks slices stack slice 0 hst hsl (by norm_num),
   sphereIndices_cell_getElem nStacks slices stack slice 1 hst hsl (by norm_num),
   sphereIndices_cell_getElem nStacks slices stack slice 2 hst hsl (by norm_num),
   sphereIndices_cell_getElem nStacks slices stack slice 3 hst hsl (by norm_num),
   sphereIndices_cell_getElem nStacks slices stack slice 4 hst hsl (by norm_num),
   sphereIndices_cell_getElem nStacks slices stack slice 5 hst hsl (by norm_num)⟩

/-- Witness for C4 (amended) at `stacks = 2`, `slices = 4`, cell `(1, 2)`. -/
theorem createSphereMesh_cell_indices_witness :
    (createSphereMesh 1 2 4).indices[6 * (1 * 4 + 2)]? =
      some ((1 * (4 + 1) + 2) % 65536) ∧
    (createSphereMesh 1 2 4).indices[6 * (1 * 4 + 2) + 1]? =
      some ((1 * (4 + 1) + 2 + 4 + 1) % 65536) ∧
    (createSphereMesh 1 2 4).indices[6 * (1 * 4 + 2) + 2]? =
      some ((1 * (4 + 1) + 2 + 1) % 65536) ∧
    (createSphereMesh 1 2 4).indices[6 * (1 * 4 + 2) + 3]? =
      some ((1 * (4 + 1) + 2 + 1) % 65536) ∧
    (createSphereMesh 1 2 4).indices[6 * (1 * 4 + 2) + 4]? =
      some ((1 * (4 + 1) + 2 + 4 + 1) % 65536) ∧
    (createSphereMesh 1 2 4).indices[6 * (1 * 4 + 2) + 5]? =
      some ((1 * (4 + 1) + 2 + 4 + 1 + 1) % 65536) :=
  createSphereMesh_cell_indices 1 2 4 1 2 (by norm_num) (by norm_num)
    (by norm_num) (by norm_num)

/-- C4 counterexample: at `stacks = 256`, `slices = 255` the mesh has
`vertexCount = 65792 > 65536`, and at cell `(stack, slice) = (255, 254)` the
value written at offset `6*(255*255+254)+1 = 391675` is the `Uint16`
truncation `254`, not the untruncated `second = 255*(255+1)+254+255+1 =
65790` the claim requires. -/
theorem createSphereMesh_cell_indices_counterexample :
    (createSphereMesh (1 : ℝ) 256 255).indices[391675]? = some 254 ∧
    (createSphereMesh (1 : ℝ) 256 255).indices[391675]? ≠
      some (255 * (255 + 1) + 254 + 255 + 1) := by
  have h := sphereIndices_cell_getElem 256 255 255 254 1 (by norm_num)
    (by norm_num) (by norm_num)
  have hval : (createSphereMesh (1 : ℝ) 256 255).indices[391675]? =
      some 254 := by
    show (sphereIndices 256 255)[391675]? = some 254
    rw [show (391675 : ℕ) = 6 * (255 * 255 + 254) + 1 by norm_num, h]
    norm_num [sphereCellIndices]
  refine ⟨hval, ?_⟩
  rw [hval]
  simp

/-- C5: the UV pair of grid vertex `(stack, slice)` is `u = slice/slices` at
offset `2*(stack*(slices+1)+slice)` and `v = stack/stacks` at the following
offset of the `uvs` array. -/
theorem createSphereMesh_uv (radius : ℝ) (nStacks slices stack slice : ℕ)
    (h1 : 1 ≤ nStacks) (h2 : 1 ≤ slices)
    (hst : stack ≤ nStacks) (hsl : slice ≤ slices) :
    (createSphereMesh radius nStacks slices).uvs[2 * (stack * (slices + 1) + slice)]? =
      some ((slice : ℝ) / (slices : ℝ)) ∧
    (createSphereMesh radius nStacks slices).uvs[2 * (stack * (slices + 1) + slice) + 1]? =
      some ((stack : ℝ) / (nStacks : ℝ)) :=
  ⟨sphereUVs_vertex_getElem nStacks slices stack slice 0 (by omega) (by omega)
    (by norm_num),
   sphereUVs_vertex_getElem nStacks slices stack slice 1 (by omega) (by omega)
    (by norm_num)⟩

/-- Witness for C5 at `stacks = 2`, `slices = 4`, vertex `(1, 2)`. -/
theorem createSphereMesh_uv_witness :
    (createSphereMesh 1 2 4).uvs[2 * (1 * (4 + 1) + 2)]? =
      some (((2 : ℕ) : ℝ) / ((4 : ℕ) : ℝ)) ∧
    (createSphereMesh 1 2 4).uvs[2 * (1 * (4 + 1) + 2) + 1]? =
      some (((1 : ℕ) : ℝ) / ((2 : ℕ) : ℝ)) :=
  createSphereMesh_uv 1 2 4 1 2 (by norm_num) (by norm_num) (by norm_num)
    (by norm_num)

/-- Squared Euclidean norm of any generated vertex position is `radius²`:
the spherical-to-Cartesian formulas satisfy `x² + y² + z² = r²` exactly. -/
theorem vertexPos_norm_sq (radius : ℝ) (nStacks slices st sl : ℕ) :
    (vertexPos radius nStacks slices st sl).1 ^ 2 +
      (vertexPos radius nStacks slices st sl).2.1 ^ 2 +
      (vertexPos radius nStacks slices st sl).2.2 ^ 2 = radius ^ 2 := by
  simp only [vertexPos]
  linear_combination
    (radius ^ 2 * Real.sin (((st : ℝ) / (nStacks : ℝ)) * Real.pi) ^ 2) *
      Real.sin_sq_add_cos_sq (((sl : ℝ) / (slices : ℝ)) * 2 * Real.pi) +
    radius ^ 2 * Real.sin_sq_add_cos_sq (((st : ℝ) / (nStacks : ℝ)) * Real.pi)

/-- C6 (amended): the three position entries of every vertex `v` of
`createSphereMesh(r, stacks, slices)` have Euclidean norm `|r|` exactly in
the real-arithmetic model (hence `r` within tolerance whenever `r ≥ 0`); the
original claim's "norm equal to `r`" fails for negative radius. -/
theorem createSphereMesh_vertex_norm (radius : ℝ) (nStacks slices v : ℕ)
    (h1 : 1 ≤ nStacks) (h2 : 1 ≤ slices)
    (hv : v < (nStacks + 1) * (slices + 1)) :
    (createSphereMesh radius nStacks slices).positions[3 * v]? =
      some (vertexPos radius nStacks slices
        (v / (slices + 1)) (v % (slices + 1))).1 ∧
    (createSphereMesh radius nStacks slices).positions[3 * v + 1]? =
      some (vertexPos radius nStacks slices
        (v / (slices + 1)) (v % (slices + 1))).2.1 ∧
    (createSphereMesh radius nStacks slices).positions[3 * v + 2]? =
      some (vertexPos radius nStacks slices
        (v / (slices + 1)) (v % (slices + 1))).2.2 ∧
    Real.sqrt
      ((vertexPos radius nStacks slices
          (v / (slices + 1)) (v % (slices + 1))).1 ^ 2 +
        (vertexPos radius nStacks slices
          (v / (slices + 1)) (v % (slices + 1))).2.1 ^ 2 +
        (vertexPos radius nStacks slices
          (v / (slices + 1)) (v % (slices + 1))).2.2 ^ 2) = |radius| := by
  have hsl2 : v % (slices + 1) < slices + 1 := Nat.mod_lt _ (Nat.succ_pos _)
  have hidx : v = v / (slices + 1) * (slices + 1) + v % (slices + 1) := by
    have hq := Nat.div_add_mod v (slices + 1)
    have e3 : v / (slices + 1) * (slices + 1) =
      (slices + 1) * (v / (slices + 1)) := Nat.mul_comm _ _
    omega
  have hst2 : v / (slices + 1) < nStacks + 1 := by
    by_contra hcon
    push_neg at hcon
    have hmul : (nStacks + 1) * (slices + 1) ≤
        v / (slices + 1) * (slices + 1) := Nat.mul_le_mul_right _ hcon
    omega
  have h3a : 3 * v =
      3 * (v / (slices + 1) * (slices + 1) + v % (slices + 1)) := by
    rw [← hidx]
  have h3b : 3 * v + 1 =
      3 * (v / (slices + 1) * (slices + 1) + v % (slices + 1)) + 1 := by
    rw [← hidx]
  have h3c : 3 * v + 2 =
      3 * (v / (slices + 1) * (slices + 1) + v % (slices + 1)) + 2 := by
    rw [← hidx]
  refine ⟨?_, ?_, ?_, ?_⟩
  · rw [h3a]
    exact spherePositions_vertex_getElem radius nStacks slices
      (v / (slices + 1)) (v % (slices + 1)) 0 hst2 hsl2 (by norm_num)
  · rw [h3b]
    exact spherePositions_vertex_getElem radius nStacks slices
      (v / (slices + 1)) (v % (slices + 1)) 1 hst2 hsl2 (by norm_num)
  · rw [h3c]
    exact spherePositions_vertex_getElem radius nStacks slices
      (v / (slices + 1)) (v % (slices + 1)) 2 hst2 hsl2 (by norm_num)
  · rw [vertexPos_norm_sq, Real.sqrt_sq_eq_abs]

/-- Witness for C6 (amended) at `radius = 1`, `stacks = 2`, `slices = 4`,
vertex 7. -/
theorem createSphereMesh_vertex_norm_witness :
    (createSphereMesh 1 2 4).positions[3 * 7]? =
      some (vertexPos 1 2 4 (7 / (4 + 1)) (7 % (4 + 1))).1 ∧
    (createSphereMesh 1 2 4).positions[3 * 7 + 1]? =
      some (vertexPos 1 2 4 (7 / (4 + 1)) (7 % (4 + 1))).2.1 ∧
    (createSphereMesh 1 2 4).positions[3 * 7 + 2]? =
      some (vertexPos 1 2 4 (7 / (4 + 1)) (7 % (4 + 1))).2.2 ∧
    Real.sqrt ((vertexPos 1 2 4 (7 / (4 + 1)) (7 % (4 + 1))).1 ^ 2 +
      (vertexPos 1 2 4 (7 / (4 + 1)) (7 % (4 + 1))).2.1 ^ 2 +
      (vertexPos 1 2 4 (7 / (4 + 1)) (7 % (4 + 1))).2.2 ^ 2) = |(1 : ℝ)| :=
  createSphereMesh_vertex_norm 1 2 4 7 (by norm_num) (by norm_num)
    (by norm_num)

/-- C6 counterexample: at `radius = -1`, `stacks = slices = 1` the first
vertex is `(0, -1, 0)`, whose Euclidean norm is `1`, not the radius `-1`. -/
theorem createSphereMesh_vertex_norm_counterexample :
    (createSphereMesh (-1 : ℝ) 1 1).positions[0]? = some 0 ∧
    (createSphereMesh (-1 : ℝ) 1 1).positions[1]? = some (-1 : ℝ) ∧
    (createSphereMesh (-1 : ℝ) 1 1).positions[2]? = some 0 ∧
    Real.sqrt ((0 : ℝ) ^ 2 + (-1 : ℝ) ^ 2 + (0 : ℝ) ^ 2) = 1 ∧
    (1 : ℝ) ≠ (-1 : ℝ) := by
  have hx : (vertexPos (-1 : ℝ) 1 1 0 0).1 = 0 := by
    simp [vertexPos]
  have hy : (vertexPos (-1 : ℝ) 1 1 0 0).2.1 = -1 := by
    simp [vertexPos]
  have hz : (vertexPos (-1 : ℝ) 1 1 0 0).2.2 = 0 := by
    simp [vertexPos]
  have p0 : (createSphereMesh (-1 : ℝ) 1 1).positions[3 * (0 * (1 + 1) + 0) + 0]? =
      some (vertexPos (-1 : ℝ) 1 1 0 0).1 :=
    spherePositions_vertex_getElem (-1) 1 1 0 0 0 (by norm_num) (by norm_num)
      (by norm_num)
  have p1 : (createSphereMesh (-1 : ℝ) 1 1).positions[3 * (0 * (1 + 1) + 0) + 1]? =
      some (vertexPos (-1 : ℝ) 1 1 0 0).2.1 :=
    spherePositions_vertex_getElem (-1) 1 1 0 0 1 (by norm_num) (by norm_num)
      (by norm_num)
  have p2 : (createSphereMesh (-1 : ℝ) 1 1).positions[3 * (0 * (1 + 1) + 0) + 2]? =
      some (vertexPos (-1 : ℝ) 1 1 0 0).2.2 :=
    spherePositions_vertex_getElem (-1) 1 1 0 0 2 (by norm_num) (by norm_num)
      (by norm_num)
  rw [hx] at p0
  rw [hy] at p1
  rw [hz] at p2
  refine ⟨p0, p1, p2, ?_, by norm_num⟩
  rw [show (0 : ℝ) ^ 2 + (-1 : ℝ) ^ 2 + (0 : ℝ) ^ 2 = 1 by norm_num]
  exact Real.sqrt_one

/-- C7: for every slice, the vertex of the top pole row (`stack = 0`) is
exactly `(0, r, 0)` and the vertex of the bottom pole row (`stack = stacks`)
is exactly `(0, -r, 0)` in the real-arithmetic model, independent of
`slice`. -/
theorem createSphereMesh_poles (radius : ℝ) (nStacks slices slice : ℕ)
    (h1 : 1 ≤ nStacks) (h2 : 1 ≤ slices) (hsl : slice ≤ slices) :
    ((createSphereMesh radius nStacks slices).positions[3 * (0 * (slices + 1) + slice)]? =
        some 0 ∧
      (createSphereMesh radius nStacks slices).positions[3 * (0 * (slices + 1) + slice) + 1]? =
        some radius ∧
      (createSphereMesh radius nStacks slices).positions[3 * (0 * (slices + 1) + slice) + 2]? =
        some 0) ∧
    ((createSphereMesh radius nStacks slices).positions[3 * (nStacks * (slices + 1) + slice)]? =
        some 0 ∧
      (createSphereMesh radius nStacks slices).positions[3 * (nStacks * (slices + 1) + slice) + 1]? =
        some (-radius) ∧
      (createSphereMesh radius nStacks slices).positions[3 * (nStacks * (slices + 1) + slice) + 2]? =
        some 0) := by
  have hcast : ((nStacks : ℕ) : ℝ) / ((nStacks : ℕ) : ℝ) = 1 :=
    div_self (Nat.cast_ne_zero.mpr (by omega))
  have hx0 : (vertexPos radius nStacks slices 0 slice).1 = 0 := by
    simp [vertexPos]
  have hy0 : (vertexPos radius nStacks slices 0 slice).2.1 = radius := by
    simp [vertexPos]
  have hz0 : (vertexPos radius nStacks slices 0 slice).2.2 = 0 := by
    simp [vertexPos]
  have hxN : (vertexPos radius nStacks slices nStacks slice).1 = 0 := by
    simp only [vertexPos]
    rw [hcast, one_mul, Real.sin_pi]
    ring
  have hyN : (vertexPos radius nStacks slices nStacks slice).2.1 = -radius := by
    simp only [vertexPos]
    rw [hcast, one_mul, Real.cos_pi]
    ring
  have hzN : (vertexPos radius nStacks slices nStacks slice).2.2 = 0 := by
    simp only [vertexPos]
    rw [hcast, one_mul, Real.sin_pi]
    ring
  have p00 : (createSphereMesh radius nStacks slices).positions[3 * (0 * (slices + 1) + slice) + 0]? =
      some (vertexPos radius nStacks slices 0 slice).1 :=
    spherePositions_vertex_getElem radius nStacks slices 0 slice 0 (by omega)
      (by omega) (by norm_num)
  have p01 : (createSphereMesh radius nStacks slices).positions[3 * (0 * (slices + 1) + slice) + 1]? =
      some (vertexPos radius nStacks slices 0 slice).2.1 :=
    spherePositions_vertex_getElem radius nStacks slices 0 slice 1 (by omega)
      (by omega) (by norm_num)
  have p02 : (createSphereMesh radius nStacks slices).positions[3 * (0 * (slices + 1) + slice) + 2]? =
      some (vertexPos radius nStacks slices 0 slice).2.2 :=
    spherePositions_vertex_getElem radius nStacks slices 0 slice 2 (by omega)
      (by omega) (by norm_num)
  have pN0 : (createSphereMesh radius nStacks slices).positions[3 * (nStacks * (slices + 1) + slice) + 0]? =
      some (vertexPos radius nStacks slices nStacks slice).1 :=
    spherePositions_vertex_getElem radius nStacks slices nStacks slice 0
      (by omega) (by omega) (by norm_num)
  have pN1 : (createSphereMesh radius nStacks slices).positions[3 * (nStacks * (slices + 1) + slice) + 1]? =
      some (vertexPos radius nStacks slices nStacks slice).2.1 :=
    spherePositions_vertex_getElem radius nStacks slices nStacks slice 1
      (by omega) (by omega) (by norm_num)
  have pN2 : (createSphereMesh radius nStacks slices).positions[3 * (nStacks * (slices + 1) + slice) + 2]? =
      some (vertexPos radius nStacks slices nStacks slice).2.2 :=
    spherePositions_vertex_getElem radius nStacks slices nStacks slice 2
      (by omega) (by omega) (by norm_num)
  rw [hx0] at p00
  rw [hy0] at p01
  rw [hz0] at p02
  rw [hxN] at pN0
  rw [hyN] at pN1
  rw [hzN] at pN2
  exact ⟨⟨p00, p01, p02⟩, ⟨pN0, pN1, pN2⟩⟩

/-- Witness for C7 at `radius = 1`, `stacks = 2`, `slices = 4`,
`slice = 3`. -/
theorem createSphereMesh_poles_witness :
    ((createSphereMesh 1 2 4).positions[3 * (0 * (4 + 1) + 3)]? =
        some 0 ∧
      (createSphereMesh 1 2 4).positions[3 * (0 * (4 + 1) + 3) + 1]? =
        some (1 : ℝ) ∧
      (createSphereMesh 1 2 4).positions[3 * (0 * (4 + 1) + 3) + 2]? =
        some 0) ∧
    ((createSphereMesh 1 2 4).positions[3 * (2 * (4 + 1) + 3)]? =
        some 0 ∧
      (createSphereMesh 1 2 4).positions[3 * (2 * (4 + 1) + 3) + 1]? =
        some (-(1 : ℝ)) ∧
      (createSphereMesh 1 2 4).positions[3 * (2 * (4 + 1) + 3) + 2]? =
        some 0) :=
  createSphereMesh_poles 1 2 4 3 (by norm_num) (by norm_num) (by norm_num)

/-- C9: `createSphereMesh` is total (it is a Lean function); the oversized
warning fires exactly when `vertexCount > 65535`, and regardless of whether
it fires, the output is built by the same rules: the array lengths satisfy
the shape invariants unconditionally and every index value fits the
unsigned-16-bit element type. -/
theorem createSphereMesh_warning_shape (radius : ℝ) (nStacks slices : ℕ)
    (h1 : 1 ≤ nStacks) (h2 : 1 ≤ slices) :
    (sphereMeshWarnings nStacks slices ≠ [] ↔
      65535 < (createSphereMesh radius nStacks slices).vertexCount) ∧
    (createSphereMesh radius nStacks slices).positions.length =
      3 * (createSphereMesh radius nStacks slices).vertexCount ∧
    (createSphereMesh radius nStacks slices).uvs.length =
      2 * (createSphereMesh radius nStacks slices).vertexCount ∧
    (createSphereMesh radius nStacks slices).indices.length =
      (createSphereMesh radius nStacks slices).indexCount ∧
    ∀ n ∈ (createSphereMesh radius nStacks slices).indices, n < 65536 := by
  refine ⟨?_, ?_, ?_, ?_, ?_⟩
  · show sphereMeshWarnings nStacks slices ≠ [] ↔
      65535 < (nStacks + 1) * (slices + 1)
    by_cases h : 65535 < (nStacks + 1) * (slices + 1)
    · simp [sphereMeshWarnings, h]
    · simp [sphereMeshWarnings, h]
  · show (spherePositions radius nStacks slices).length =
      3 * ((nStacks + 1) * (slices + 1))
    rw [spherePositions_length]; ring
  · show (sphereUVs nStacks slices).length =
      2 * ((nStacks + 1) * (slices + 1))
    rw [sphereUVs_length]; ring
  · show (sphereIndices nStacks slices).length = nStacks * slices * 6
    rw [sphereIndices_length]; ring
  · intro n hn
    exact (sphereIndices_mem_bound nStacks slices n hn).2

/-- Witness for C9 at `radius = 1`, `stacks = 2`, `slices = 4`. -/
theorem createSphereMesh_warning_shape_witness :
    (sphereMeshWarnings 2 4 ≠ [] ↔
      65535 < (createSphereMesh (1 : ℝ) 2 4).vertexCount) ∧
    (createSphereMesh (1 : ℝ) 2 4).positions.length =
      3 * (createSphereMesh (1 : ℝ) 2 4).vertexCount ∧
    (createSphereMesh (1 : ℝ) 2 4).uvs.length =
      2 * (createSphereMesh (1 : ℝ) 2 4).vertexCount ∧
    (createSphereMesh (1 : ℝ) 2 4).indices.length =
      (createSphereMesh (1 : ℝ) 2 4).indexCount ∧
    ∀ n ∈ (createSphereMesh (1 : ℝ) 2 4).indices, n < 65536 :=
  createSphereMesh_warning_shape 1 2 4 (by norm_num) (by norm_num)

/-- C10: `createSphereMesh` is deterministic: two calls with equal arguments
produce meshes with element-wise equal buffers and equal counts. -/
theorem createSphereMesh_deterministic (r1 r2 : ℝ) (s1 s2 l1 l2 : ℕ)
    (hr : r1 = r2) (hs : s1 = s2) (hl : l1 = l2) :
    (createSphereMesh r1 s1 l1).positions =
      (createSphereMesh r2 s2 l2).positions ∧
    (createSphereMesh r1 s1 l1).uvs = (createSphereMesh r2 s2 l2).uvs ∧
    (createSphereMesh r1 s1 l1).indices =
      (createSphereMesh r2 s2 l2).indices ∧
    (createSphereMesh r1 s1 l1).vertexCount =
      (createSphereMesh r2 s2 l2).vertexCount ∧
    (createSphereMesh r1 s1 l1).indexCount =
      (createSphereMesh r2 s2 l2).indexCount := by
  subst hr
  subst hs
  subst hl
  exact ⟨rfl, rfl, rfl, rfl, rfl⟩

/-- Witness for C10 at `radius = 1`, `stacks = 2`, `slices = 4`. -/
theorem createSphereMesh_deterministic_witness :
    (createSphereMesh 1 2 4).positions = (createSphereMesh 1 2 4).positions ∧
    (createSphereMesh 1 2 4).uvs = (createSphereMesh 1 2 4).uvs ∧
    (createSphereMesh 1 2 4).indices = (createSphereMesh 1 2 4).indices ∧
    (createSphereMesh 1 2 4).vertexCount =
      (createSphereMesh 1 2 4).vertexCount ∧
    (createSphereMesh 1 2 4).indexCount =
      (createSphereMesh 1 2 4).indexCount :=
  createSphereMesh_deterministic 1 1 2 2 4 4 rfl rfl rfl

end Sphere
